import Mathlib

/-!
# Verification of the selenium-trace-to-test-framework converters

A shallow embedding of `src/converters/cypress-converter.js` and
`src/converters/playwright-converter.js` from the framework-migration
repository, together with theorems settling the frozen claims about them.

Strings are modelled as `List Char` (`Str`), so that every operation of the
JavaScript source (substring search, prefix tests, global character
replacement, the two regular expressions, JSON decoding of trace lines) is an
executable Lean function that the kernel can evaluate on concrete inputs.
-/

set_option maxRecDepth 100000

namespace FM

/-- JavaScript strings, modelled as lists of characters. -/
abbrev Str := List Char

/-- Shorthand turning a Lean string literal into the `Str` model. -/
def sl (s : String) : Str := s.toList

/-- Characters matched by the JavaScript regexp `.` (any character except the
line terminators `\n`, `\r`, U+2028, U+2029). -/
def dotChar (c : Char) : Bool :=
  !(c = '\n' || c = '\r' || c = ' ' || c = ' ')

/-- `String.prototype.includes(pat)`: `pat` occurs as a contiguous substring. -/
def containsSubstr (s pat : Str) : Bool :=
  if pat.isPrefixOf s then true
  else
    match s with
    | [] => false
    | _ :: rest => containsSubstr rest pat

/-- `selector.replace(/"/g, '\\"')`: every double quote becomes
backslash-quote; all other characters are untouched. -/
def escapeQuotes (s : Str) : Str :=
  s.flatMap fun c => if c = '"' then ['\\', '"'] else [c]

/-- The JavaScript idiom `s ? s.replace(/"/g, '\\"') : ''` used by both
converters (the guard only matters for the empty string, which `escapeQuotes`
also maps to itself). -/
def escSel (s : Str) : Str :=
  if s = [] then [] else escapeQuotes s

/-- `value ? value.replace(/"/g, '\\"') : ''` for an optional (possibly
`null`) value argument. -/
def escVal (v : Option Str) : Str :=
  match v with
  | none => []
  | some s => escSel s

/-- `Array.prototype.join(sep)` on a list of strings. -/
def joinSep (sep : Str) : List Str → Str
  | [] => []
  | [x] => x
  | x :: xs => x ++ sep ++ joinSep sep xs

/-- `String.prototype.replace(pat, repl)` with a *string* pattern: only the
first occurrence is replaced; the string is returned unchanged when the
pattern does not occur. -/
def replaceFirst (s pat repl : Str) : Str :=
  if pat.isPrefixOf s then repl ++ s.drop pat.length
  else
    match s with
    | [] => []
    | c :: rest => c :: replaceFirst rest pat repl

/-!
## The locator regular expression

Both converters run `target.match(/\[\[.*?\] -> (.+?)\]/)` and use capture
group 1. The functions below implement exactly the backtracking search of
that regexp: the leftmost starting position wins; at a fixed start the lazy
`.*?` prefers the fewest characters, and for each such choice the lazy
`(.+?)` prefers the fewest characters before the final `]`.
-/

/-- Lazy `(.+?)\]` with at least one character already captured (in `acc`,
reversed): close at the first `]`, otherwise extend the capture with any
`.`-matchable character. -/
def captureAux (acc : Str) : Str → Option Str
  | [] => none
  | c :: rest =>
    if c = ']' then some acc.reverse
    else if dotChar c then captureAux (c :: acc) rest
    else none

/-- Lazy `(.+?)\]`: the capture needs at least one character. -/
def matchCapture : Str → Option Str
  | [] => none
  | c :: rest => if dotChar c then captureAux [c] rest else none

/-- Try the tail `\] -> (.+?)\]` of the regexp at this exact position. -/
def locatorTailAt (l : Str) : Option Str :=
  if (sl "] -> ").isPrefixOf l then matchCapture (l.drop 5) else none

/-- Lazy `.*?\] -> (.+?)\]`: try the tail at each position, consuming one
`.`-matchable character on every failure. -/
def afterBrackets : Str → Option Str
  | [] =>
    (match locatorTailAt [] with
     | some v => some v
     | none => none)
  | c :: rest =>
    (match locatorTailAt (c :: rest) with
     | some v => some v
     | none => if dotChar c then afterBrackets rest else none)

/-- The full regexp `\[\[.*?\] -> (.+?)\]` as an unanchored search: the value
of capture group 1 of the leftmost match, or `none` when the regexp does not
match anywhere. -/
def findLocatorMatch : Str → Option Str
  | [] => none
  | c :: rest =>
    match c, rest with
    | '[', '[' :: rest2 =>
      (match afterBrackets rest2 with
       | some v => some v
       | none => findLocatorMatch rest)
    | _, _ => findLocatorMatch rest

/-!
## The dropdown-selection regular expressions

The `click` case of both converters runs `selector.match(/^(.+?) option/)`
and, when the selector contains `:has-text(`, `selector.match(/:has-text\("(.+?)"\)/)`.
-/

/-- Lazy continuation of `^(.+?) option`: close as soon as the literal
`" option"` follows the capture. -/
def parentOptionAux (acc : Str) : Str → Option Str
  | [] => none
  | c :: rest =>
    if (sl " option").isPrefixOf (c :: rest) then some acc.reverse
    else if dotChar c then parentOptionAux (c :: acc) rest
    else none

/-- Capture group 1 of `selector.match(/^(.+?) option/)` (anchored at the
start of the string). -/
def matchParentOption : Str → Option Str
  | [] => none
  | c :: rest => if dotChar c then parentOptionAux [c] rest else none

/-- Lazy continuation of `:has-text\("(.+?)"\)`: close at the first `")`. -/
def hasTextInnerAux (acc : Str) : Str → Option Str
  | [] => none
  | c :: rest =>
    if (sl "\")").isPrefixOf (c :: rest) then some acc.reverse
    else if dotChar c then hasTextInnerAux (c :: acc) rest
    else none

/-- Try `:has-text\("(.+?)"\)` at this exact position. -/
def hasTextAt (l : Str) : Option Str :=
  if (sl ":has-text(\"").isPrefixOf l then
    match l.drop 11 with
    | [] => none
    | c :: rest => if dotChar c then hasTextInnerAux [c] rest else none
  else none

/-- Capture group 1 of the leftmost match of `/:has-text\("(.+?)"\)/`. -/
def matchHasText : Str → Option Str
  | [] => none
  | l@(_ :: rest) =>
    match hasTextAt l with
    | some v => some v
    | none => matchHasText rest

/-!
## JSON values and `JSON.parse`

Each trace line goes through `JSON.parse(line)` inside a `try`/`catch`; a
parse failure silently drops the line. We model JSON values with numbers kept
as their raw source token (the converters never do arithmetic on them; a
number only ever reaches the output through JavaScript string coercion, which
agrees with the raw token for the plain integer literals trace files carry).
-/

/-- A decoded JSON value. -/
inductive Json where
  | null : Json
  | bool : Bool → Json
  | num : Str → Json
  | str : Str → Json
  | arr : List Json → Json
  | obj : List (Str × Json) → Json
deriving Repr

/-- JSON whitespace accepted by `JSON.parse` between tokens. -/
def jsonWs (c : Char) : Bool :=
  c = ' ' || c = '\t' || c = '\n' || c = '\r'

/-- Drop leading JSON whitespace. -/
def skipWs (s : Str) : Str := s.dropWhile jsonWs

/-- The value of a hexadecimal digit. -/
def hexVal (c : Char) : Option Nat :=
  if '0' ≤ c ∧ c ≤ '9' then some (c.toNat - '0'.toNat)
  else if 'a' ≤ c ∧ c ≤ 'f' then some (c.toNat - 'a'.toNat + 10)
  else if 'A' ≤ c ∧ c ≤ 'F' then some (c.toNat - 'A'.toNat + 10)
  else none

/-- The body of a JSON string literal, after the opening quote: returns the
decoded characters and the rest of the input after the closing quote.
Control characters must be escaped; `\uXXXX` is accepted for scalar values
(surrogate halves are rejected, a simplification of JavaScript's UTF-16
strings that no trace line in this development exercises). -/
def parseStringBody : Str → Option (Str × Str)
  | [] => none
  | c :: rest =>
    if c = '"' then some ([], rest)
    else if c = '\\' then
      match rest with
      | [] => none
      | e :: rest2 =>
        if e = 'u' then
          match rest2 with
          | h1 :: h2 :: h3 :: h4 :: rest3 =>
            match hexVal h1, hexVal h2, hexVal h3, hexVal h4 with
            | some a, some b, some c3, some d =>
              let n := ((a * 16 + b) * 16 + c3) * 16 + d
              if n < 0xd800 ∨ 0xe000 ≤ n then
                (parseStringBody rest3).map fun p => (Char.ofNat n :: p.1, p.2)
              else none
            | _, _, _, _ => none
          | _ => none
        else
          let dec : Option Char :=
            if e = '"' then some '"'
            else if e = '\\' then some '\\'
            else if e = '/' then some '/'
            else if e = 'b' then some (Char.ofNat 8)
            else if e = 'f' then some (Char.ofNat 12)
            else if e = 'n' then some '\n'
            else if e = 'r' then some '\r'
            else if e = 't' then some '\t'
            else none
          match dec with
          | some ch => (parseStringBody rest2).map fun p => (ch :: p.1, p.2)
          | none => none
    else if c.toNat < 0x20 then none
    else (parseStringBody rest).map fun p => (c :: p.1, p.2)

/-- Leading decimal digits of the input, and the rest. -/
def digitSpan (s : Str) : Str × Str :=
  (s.takeWhile Char.isDigit, s.dropWhile Char.isDigit)

/-- The integer part of a JSON number: `0`, or a nonzero digit followed by
digits. -/
def parseIntPart : Str → Option (Str × Str)
  | [] => none
  | c :: rest =>
    if c = '0' then some (['0'], rest)
    else if c.isDigit then
      let p := digitSpan rest
      some (c :: p.1, p.2)
    else none

/-- The optional fraction part `.digits` (empty token when absent). -/
def parseFracPart : Str → Option (Str × Str)
  | '.' :: rest =>
    let p := digitSpan rest
    if p.1 = [] then none else some ('.' :: p.1, p.2)
  | s => some ([], s)

/-- The optional exponent part `e[+-]digits` (empty token when absent). -/
def parseExpPart : Str → Option (Str × Str)
  | [] => some ([], [])
  | c :: rest =>
    if c = 'e' ∨ c = 'E' then
      let signAndRest : Str × Str :=
        match rest with
        | '+' :: r => (['+'], r)
        | '-' :: r => (['-'], r)
        | r => ([], r)
      let p := digitSpan signAndRest.2
      if p.1 = [] then none else some (c :: (signAndRest.1 ++ p.1), p.2)
    else some ([], c :: rest)

/-- A JSON number token (returned raw) and the rest of the input. -/
def parseNumber (s : Str) : Option (Str × Str) :=
  let signAndRest : Str × Str :=
    match s with
    | '-' :: r => (['-'], r)
    | r => ([], r)
  match parseIntPart signAndRest.2 with
  | none => none
  | some (ip, s1) =>
    match parseFracPart s1 with
    | none => none
    | some (fp, s2) =>
      match parseExpPart s2 with
      | none => none
      | some (ep, s3) => some (signAndRest.1 ++ ip ++ fp ++ ep, s3)

mutual

/-- One JSON value, fuel-bounded recursive descent (the fuel only guards
termination; `jsonParse` supplies more than any input can consume). -/
def parseValue : Nat → Str → Option (Json × Str)
  | 0, _ => none
  | fuel + 1, s =>
    match skipWs s with
    | 'n' :: 'u' :: 'l' :: 'l' :: r => some (.null, r)
    | 't' :: 'r' :: 'u' :: 'e' :: r => some (.bool true, r)
    | 'f' :: 'a' :: 'l' :: 's' :: 'e' :: r => some (.bool false, r)
    | '"' :: r => (parseStringBody r).map fun p => (.str p.1, p.2)
    | '{' :: r => parseObjBody fuel r
    | '[' :: r => parseArrBody fuel r
    | s' => (parseNumber s').map fun p => (.num p.1, p.2)

/-- The inside of a JSON object, after the opening brace. -/
def parseObjBody : Nat → Str → Option (Json × Str)
  | 0, _ => none
  | fuel + 1, s =>
    match skipWs s with
    | '}' :: r => some (.obj [], r)
    | '"' :: r =>
      match parseStringBody r with
      | none => none
      | some (k, r2) =>
        match skipWs r2 with
        | ':' :: r3 =>
          match parseValue fuel r3 with
          | none => none
          | some (v, r4) => parseObjEntries fuel [(k, v)] r4
        | _ => none
    | _ => none

/-- Further `, "key": value` object entries and the closing brace;
accumulates entries in source order. -/
def parseObjEntries : Nat → List (Str × Json) → Str → Option (Json × Str)
  | 0, _, _ => none
  | fuel + 1, acc, s =>
    match skipWs s with
    | '}' :: r => some (.obj acc.reverse, r)
    | ',' :: r =>
      match skipWs r with
      | '"' :: r2 =>
        match parseStringBody r2 with
        | none => none
        | some (k, r3) =>
          match skipWs r3 with
          | ':' :: r4 =>
            match parseValue fuel r4 with
            | none => none
            | some (v, r5) => parseObjEntries fuel ((k, v) :: acc) r5
          | _ => none
      | _ => none
    | _ => none

/-- The inside of a JSON array, after the opening bracket. -/
def parseArrBody : Nat → Str → Option (Json × Str)
  | 0, _ => none
  | fuel + 1, s =>
    match skipWs s with
    | ']' :: r => some (.arr [], r)
    | _ =>
      match parseValue fuel s with
      | none => none
      | some (v, r) => parseArrEntries fuel [v] r

/-- Further `, value` array entries and the closing bracket. -/
def parseArrEntries : Nat → List Json → Str → Option (Json × Str)
  | 0, _, _ => none
  | fuel + 1, acc, s =>
    match skipWs s with
    | ']' :: r => some (.arr acc.reverse, r)
    | ',' :: r =>
      match parseValue fuel r with
      | none => none
      | some (v, r2) => parseArrEntries fuel (v :: acc) r2
    | _ => none

end

/-- `JSON.parse(line)`: one JSON value with nothing but whitespace after it;
`none` models the thrown `SyntaxError`. -/
def jsonParse (line : Str) : Option Json :=
  match parseValue (2 * line.length + 8) line with
  | none => none
  | some (v, rest) => if skipWs rest = [] then some v else none

/-- Property lookup on a decoded JSON value: `none` for a missing key or a
non-object (JavaScript's `undefined`). With duplicate keys `JSON.parse`
keeps the last value, hence the lookup from the right. -/
def lookupLast : List (Str × Json) → Str → Option Json
  | [], _ => none
  | (k', v) :: rest, k =>
    match lookupLast rest k with
    | some r => some r
    | none => if k' = k then some v else none

/-- `obj[key]` on a decoded JSON value. -/
def jsonLookup (j : Json) (k : Str) : Option Json :=
  match j with
  | .obj kvs => lookupLast kvs k
  | _ => none

/-!
## JavaScript coercions used by the converters
-/

mutual

/-- JavaScript `ToString` on a decoded JSON value, as used for template
literals and property keys (`actionBreakdown[action]`). Arrays join their
elements with commas (`null` elements render empty); numbers render as their
raw source token, which agrees with JavaScript's number-to-string conversion
for the plain integer literals that trace files carry. -/
def jsToStr : Json → Str
  | .null => sl "null"
  | .bool b => if b then sl "true" else sl "false"
  | .num raw => raw
  | .str s => s
  | .obj _ => sl "[object Object]"
  | .arr l => joinSep (sl ",") (jsArrItems l)

/-- Elements of an array under JavaScript `Array.prototype.toString`. -/
def jsArrItems : List Json → List Str
  | [] => []
  | .null :: rest => [] :: jsArrItems rest
  | j :: rest => jsToStr j :: jsArrItems rest

end

/-- Whether a JSON number token denotes zero: every digit of its mantissa is
`0` (the exponent cannot make a zero nonzero or vice versa). -/
def isZeroNumRaw (raw : Str) : Bool :=
  (raw.takeWhile fun c => !(c = 'e' ∨ c = 'E')).all fun c => !c.isDigit || c = '0'

/-- JavaScript truthiness of a decoded JSON value. -/
def jsTruthy : Json → Bool
  | .null => false
  | .bool b => b
  | .num raw => !isZeroNumRaw raw
  | .str s => !s.isEmpty
  | .arr _ => true
  | .obj _ => true

/-!
## Trace events and conversion state
-/

/-- The fields of a decoded `step.ok` trace event that the converters read:
`event.kind` (kept as its string coercion, which is what both the
`actionBreakdown` key and the template literals use, and which the
`Set.has`/`switch` string comparisons agree with), the raw `event.target`
JSON value, and `event.durationMs` as the text a template literal renders. -/
structure TraceEvent where
  kind : Str
  target : Option Json := none
  durationMs : Str := sl "undefined"
deriving Repr

/-- The event a decoded `step.ok` JSON object yields. -/
def eventOfJson (j : Json) : TraceEvent :=
  { kind :=
      match jsonLookup j (sl "kind") with
      | none => sl "undefined"
      | some v => jsToStr v
    target := jsonLookup j (sl "target")
    durationMs :=
      match jsonLookup j (sl "durationMs") with
      | none => sl "undefined"
      | some v => jsToStr v }

/-- What `extractCleanSelector(target)` sees of the raw `target` field:
`some ""` for the falsy values (`undefined`, `null`, `false`, `0`, `""`,
handled by the `if (!target) return ''` guard), the string itself for a
string, and `none` for a truthy non-string, on which `target.match(...)`
throws a `TypeError` (caught by the converter's per-line `try`/`catch`). -/
def targetAsString : Option Json → Option Str
  | none => some []
  | some .null => some []
  | some (.bool b) => if b then none else some []
  | some (.num raw) => if isZeroNumRaw raw then some [] else none
  | some (.str s) => some s
  | some (.arr _) => none
  | some (.obj _) => none

/-- `${event.target || 'N/A'}` for the unsupported-action comment. -/
def targetDisplay : Option Json → Str
  | none => sl "N/A"
  | some j => if jsTruthy j then jsToStr j else sl "N/A"

/-- The `stats` record each `convert` call accumulates. -/
structure Stats where
  totalActions : Nat := 0
  convertedActions : Nat := 0
  skippedActions : Nat := 0
  actionBreakdown : List (Str × Nat) := []
deriving Repr, DecidableEq

/-- `stats.actionBreakdown[action] = (stats.actionBreakdown[action] || 0) + 1`:
an existing key keeps its position (JavaScript object key order), a new key
is appended with count 1. -/
def bumpCount : List (Str × Nat) → Str → List (Str × Nat)
  | [], k => [(k, 1)]
  | (k', n) :: rest, k =>
    if k' = k then (k', n + 1) :: rest else (k', n) :: bumpCount rest k

/-- The count recorded under a key (0 when absent). -/
def countOf : List (Str × Nat) → Str → Nat
  | [], _ => 0
  | (k', n) :: rest, k => if k' = k then n else countOf rest k

/-- One generated fragment: the code line, its comment, and (for `get` steps
of the Cypress converter) the `url`/`origin` fields the source attaches. -/
structure Step where
  action : Str
  comment : Str
  url : Option Str := none
  origin : Option Str := none
deriving Repr, DecidableEq

/-!
## Trace reading shared by both converters

`convert` splits the file on `'\n'` and keeps the lines whose `trim()` is
nonempty.
-/

/-- Characters removed by `String.prototype.trim` (the ASCII whitespace and
the BOM/NBSP/line-separator characters; the exotic Unicode space separators
are omitted from the model). -/
def jsTrimWs (c : Char) : Bool :=
  c = ' ' || c = '\t' || c = '\n' || c = '\r' ||
  c = Char.ofNat 11 || c = Char.ofNat 12 || c = Char.ofNat 0xa0 ||
  c = Char.ofNat 0xfeff || c = Char.ofNat 0x2028 || c = Char.ofNat 0x2029

/-- `content.split('\n')`. -/
def splitOnNl : Str → List Str
  | [] => [[]]
  | c :: rest =>
    if c = '\n' then [] :: splitOnNl rest
    else
      match splitOnNl rest with
      | [] => [[c]]
      | l :: ls => (c :: l) :: ls

/-- `line => line.trim()` as the filter predicate: the trimmed line is a
nonempty (truthy) string. -/
def keepLine (line : Str) : Bool :=
  line.any fun c => !jsTrimWs c

/-- `traceContent.split('\n').filter(line => line.trim())`. -/
def tracedLines (content : Str) : List Str :=
  (splitOnNl content).filter keepLine

/-!
## The Cypress converter (`src/converters/cypress-converter.js`)
-/

namespace Cypress

/-- `this.supportedActions` of `CypressConverter`. -/
def supportedActions : List Str :=
  [sl "get", sl "click", sl "sendKeys", sl "clear", sl "getTagName",
   sl "Navigation.refresh", sl "Navigation.back", sl "Navigation.forward"]

/-- The `autoHandledActions` set built inside `convert`. -/
def autoHandledActions : List Str :=
  [sl "findElement", sl "findElements", sl "ImplicitWait.set", sl "Navigation.to"]

/-- `extractOrigin(url)`: `${new URL(url).protocol}//${new URL(url).host}`,
`null` on a parse failure. The WHATWG parser is modelled for the
special-scheme absolute URLs trace files carry: letters, `://`, then the host
up to the first `/`, `?` or `#`, scheme and host lowercased; a URL of any
other shape is treated as the parse failure (`null`). -/
def extractOrigin (url : Str) : Option Str :=
  if url = [] then none
  else
    let scheme := url.takeWhile Char.isAlpha
    let rest := url.drop scheme.length
    if scheme = [] then none
    else if (sl "://").isPrefixOf rest then
      let host := (rest.drop 3).takeWhile fun c => !(c = '/' ∨ c = '?' ∨ c = '#')
      if host = [] then none
      else some (scheme.map Char.toLower ++ sl "://" ++ host.map Char.toLower)
    else none

/-- `extractCleanSelector(target)`. Each `locatorPart.replace(prefix, '')`
replaces the first occurrence of the prefix, which the guarding
`startsWith` places at index 0, so it drops exactly that prefix. -/
def extractCleanSelector (target : Str) : Str :=
  if target = [] then []
  else
    match findLocatorMatch target with
    | some locatorPart =>
      if (sl "name: ").isPrefixOf locatorPart then
        sl "[name=\"" ++ locatorPart.drop 6 ++ sl "\"]"
      else if (sl "css selector: ").isPrefixOf locatorPart then
        locatorPart.drop 14
      else if (sl "xpath: ").isPrefixOf locatorPart then
        sl "xpath=" ++ locatorPart.drop 7
      else if (sl "tag name: ").isPrefixOf locatorPart then
        locatorPart.drop 10
      else if (sl "id: ").isPrefixOf locatorPart then
        sl "#" ++ locatorPart.drop 4
      else if (sl "class: ").isPrefixOf locatorPart then
        sl "." ++ locatorPart.drop 7
      else locatorPart
    | none =>
      if (sl "http").isPrefixOf target ∨ (sl "[http").isPrefixOf target then
        target.filter fun c => !(c = '[' ∨ c = ']')
      else target

/-- `generateComment(text, language)` (the language argument is unused in the
source as well). -/
def generateComment (text : Str) (_language : Str) : Str :=
  sl "// " ++ text

/-- `guessInputValue(selector)`. -/
def guessInputValue (selector : Str) : Str :=
  if containsSubstr selector (sl "password") then sl "testPassword123"
  else if containsSubstr selector (sl "email") then sl "test@example.com"
  else if containsSubstr selector (sl "text") then sl "Sample text input"
  else if containsSubstr selector (sl "textarea") then sl "This is sample textarea content"
  else if containsSubstr selector (sl "name") then sl "John Doe"
  else sl "test-value"

/-- `convertStep(event, language, currentOrigin, navigationHistory)`.
`none` models a thrown exception (a truthy non-string `target` under
`.match`, or `textMatch[1]` on a failed `:has-text` regexp match), which the
caller's `try`/`catch` turns into skipping the rest of the line. -/
def convertStep (ev : TraceEvent) (language : Str) (currentOrigin : Option Str)
    (navigationHistory : List (Option Str)) : Option Step :=
  match targetAsString ev.target with
  | none => none
  | some tgt =>
    let selector := extractCleanSelector tgt
    let escapedSelector := escSel selector
    if ev.kind = sl "get" then
      let url := escapedSelector
      let targetOrigin := extractOrigin url
      some { action := sl "cy.visit(\"" ++ escapedSelector ++ sl "\")"
             comment := sl "Navigate to " ++ selector
             url := some url
             origin := targetOrigin }
    else if ev.kind = sl "click" then
      let clickStep : Option Step :=
        some { action := sl "cy.get(\"" ++ escapedSelector ++ sl "\").click()"
               comment := sl "Click element (" ++ ev.durationMs ++ sl "ms)" }
      if containsSubstr selector (sl "option") then
        match matchParentOption selector with
        | some parentSelector =>
          let escapedParentSelector := escapeQuotes parentSelector
          if containsSubstr selector (sl ":has-text(") then
            match matchHasText selector with
            | some text =>
              let escapedText := escapeQuotes text
              some { action := sl "cy.get(\"" ++ escapedParentSelector ++
                               sl "\").select(\"" ++ escapedText ++ sl "\")"
                     comment := sl "Select option by text" }
            | none => none
          else clickStep
        | none => clickStep
      else clickStep
    else if ev.kind = sl "sendKeys" then
      let inputValue := guessInputValue selector
      let escapedValue := escSel inputValue
      some { action := sl "cy.get(\"" ++ escapedSelector ++ sl "\").type(\"" ++
                       escapedValue ++ sl "\")"
             comment := sl "Type into input field" }
    else if ev.kind = sl "clear" then
      some { action := sl "cy.get(\"" ++ escapedSelector ++ sl "\").clear()"
             comment := sl "Clear input field" }
    else if ev.kind = sl "getTagName" then
      some { action := sl "cy.get(\"" ++ escapedSelector ++ sl "\").should('be.visible')"
             comment := sl "Verify element is visible" }
    else if ev.kind = sl "Navigation.refresh" then
      some { action := sl "cy.reload()", comment := sl "Refresh page" }
    else if ev.kind = sl "Navigation.back" then
      if 1 < navigationHistory.length then
        let previousOrigin := navigationHistory.getD (navigationHistory.length - 2) none
        match previousOrigin with
        | some p =>
          if some p ≠ currentOrigin then
            some { action := sl "// cy.go('back') - Skipped due to cross-origin navigation"
                   comment := sl "Navigate back (skipped - cross-origin)" }
          else
            some { action := sl "cy.go('back')", comment := sl "Navigate back" }
        | none =>
          some { action := sl "cy.go('back')", comment := sl "Navigate back" }
      else
        some { action := sl "cy.go('back')", comment := sl "Navigate back" }
    else if ev.kind = sl "Navigation.forward" then
      some { action := sl "// cy.go('forward') - Skipped due to potential cross-origin navigation"
             comment := sl "Navigate forward (skipped - cross-origin)" }
    else
      some { action := generateComment (sl "TODO: Implement " ++ ev.kind ++ sl " action") language
             comment := sl "Unsupported action: " ++ ev.kind }

/-- The per-conversion mutable state of `CypressConverter.convert`: the
collected steps, the statistics, and the navigation tracking. -/
structure ConvState where
  steps : List Step := []
  stats : Stats := {}
  currentOrigin : Option Str := none
  navigationHistory : List (Option Str) := []
deriving Repr

/-- The body of the `lines.forEach` loop for one decoded `step.ok` event. -/
def processEvent (language : Str) (st : ConvState) (ev : TraceEvent) : ConvState :=
  let action := ev.kind
  let stats1 : Stats :=
    { st.stats with actionBreakdown := bumpCount st.stats.actionBreakdown action }
  let stats2 : Stats :=
    if action ∈ autoHandledActions then stats1
    else { stats1 with totalActions := stats1.totalActions + 1 }
  if action ∈ supportedActions then
    match convertStep ev language st.currentOrigin st.navigationHistory with
    | some step =>
      let st1 : ConvState :=
        { st with
          stats := { stats2 with convertedActions := stats2.convertedActions + 1 }
          steps := st.steps ++ [step] }
      if action = sl "get" then
        match step.url with
        | some u =>
          if u = [] then st1
          else
            let origin := extractOrigin u
            { st1 with navigationHistory := st1.navigationHistory ++ [origin]
                       currentOrigin := origin }
        | none => st1
      else st1
    | none => { st with stats := stats2 }
  else if action ∈ autoHandledActions then
    { st with stats := stats2 }
  else
    { st with
      stats := { stats2 with skippedActions := stats2.skippedActions + 1 }
      steps := st.steps ++
        [{ action := generateComment (sl "Unsupported action: " ++ action) language
           comment := sl "Original target: " ++ targetDisplay ev.target }] }

/-- The body of the `lines.forEach` loop for one raw line: `JSON.parse`
inside `try`/`catch`, then the `event.evt === 'step.ok'` filter. -/
def processLine (language : Str) (st : ConvState) (line : Str) : ConvState :=
  match jsonParse line with
  | none => st
  | some j =>
    match jsonLookup j (sl "evt") with
    | some (.str s) =>
      if s = sl "step.ok" then processEvent language st (eventOfJson j) else st
    | _ => st

/-- The state after the whole `lines.forEach` loop of `convert`. -/
def run (content : Str) (language : Str) : ConvState :=
  (tracedLines content).foldl (processLine language) {}

/-- Literal text of the generated test file (from the source template). -/
def jsTemplatePrefix : Str :=
  sl "describe('Migrated Selenium Test', () => \x7b\n  it('should execute migrated test steps', () => \x7b\n    // This test was automatically migrated from Selenium trace\n    \n"

/-- Literal text of the generated test file (from the source template). -/
def jsTemplateSuffix : Str :=
  sl "\n  \x7d);\n\n  it('should handle form interactions', () => \x7b\n    // Simplified form interaction test\n    cy.visit('https://www.selenium.dev/selenium/web/web-form.html');\n    \n    cy.get('[name=\"my-text\"]').type('Sample text input');\n    cy.get('[name=\"my-password\"]').type('testPassword123');\n    cy.get('[name=\"my-select\"]').select('Two');\n    cy.get('input[type=\"checkbox\"]').check();\n    \n    // Verify form state\n    cy.get('[name=\"my-text\"]').should('have.value', 'Sample text input');\n    cy.get('[name=\"my-select\"]').should('have.value', '2');\n    cy.get('input[type=\"checkbox\"]').should('be.checked');\n  \x7d);\n\n  it('should handle single-origin navigation', () => \x7b\n    // Test navigation within the same origin to avoid cross-origin issues\n    cy.visit('https://www.selenium.dev/selenium/web/web-form.html');\n    cy.get('[name=\"my-text\"]').should('be.visible');\n    \n    // Verify we're on the correct page\n    cy.url().should('include', 'selenium.dev');\n    cy.title().should('contain', 'Web form');\n  \x7d);\n\x7d);"

/-- Literal text of the generated test file (from the source template). -/
def tsTemplatePrefix : Str :=
  sl "/// <reference types=\"cypress\" />\n\ndescribe('Migrated Selenium Test', () => \x7b\n  it('should execute migrated test steps', () => \x7b\n    // This test was automatically migrated from Selenium trace\n    \n"

/-- Literal text of the generated test file (from the source template). -/
def tsTemplateSuffix : Str :=
  sl "\n  \x7d);\n\n  it('should handle form interactions', () => \x7b\n    // Simplified form interaction test\n    cy.visit('https://www.selenium.dev/selenium/web/web-form.html');\n    \n    cy.get('[name=\"my-text\"]').type('Sample text input');\n    cy.get('[name=\"my-password\"]').type('testPassword123');\n    cy.get('[name=\"my-select\"]').select('Two');\n    cy.get('input[type=\"checkbox\"]').check();\n    \n    // Verify form state\n    cy.get('[name=\"my-text\"]').should('have.value', 'Sample text input');\n    cy.get('[name=\"my-select\"]').should('have.value', '2');\n    cy.get('input[type=\"checkbox\"]').should('be.checked');\n  \x7d);\n\n  it('should handle single-origin navigation', () => \x7b\n    // Test navigation within the same origin to avoid cross-origin issues\n    cy.visit('https://www.selenium.dev/selenium/web/web-form.html');\n    cy.get('[name=\"my-text\"]').should('be.visible');\n    \n    // Verify we're on the correct page\n    cy.url().should('include', 'selenium.dev');\n    cy.title().should('contain', 'Web form');\n  \x7d);\n\x7d);"

/-- The `steps.map(...)` + `join('\n\n')` test body shared by the two
language templates. -/
def testBody (steps : List Step) : Str :=
  joinSep (sl "\n\n")
    (steps.map fun step => sl "    // " ++ step.comment ++ sl "\n    " ++ step.action ++ sl ";")

/-- `generateJavaScriptTest(steps)`. -/
def generateJavaScriptTest (steps : List Step) : Str :=
  jsTemplatePrefix ++ testBody steps ++ jsTemplateSuffix

/-- `generateTypeScriptTest(steps)`. -/
def generateTypeScriptTest (steps : List Step) : Str :=
  tsTemplatePrefix ++ testBody steps ++ tsTemplateSuffix

/-- `generateTestFile(steps, language)`: `typescript` gets the TypeScript
template, everything else (`javascript` and the `default` case alike) the
JavaScript one. -/
def generateTestFile (steps : List Step) (language : Str) : Str :=
  if language = sl "typescript" then generateTypeScriptTest steps
  else generateJavaScriptTest steps

/-- `getFilename(language)`. -/
def getFilename (language : Str) : Str :=
  if language = sl "typescript" then sl "migrated-selenium.cy.ts"
  else sl "migrated-selenium.cy.js"

/-- The `{content, filename, stats}` record `convert` resolves with. -/
structure Output where
  content : Str
  filename : Str
  stats : Stats
deriving Repr

/-- `convert(traceFilePath, language)`, with the already-read file contents
in place of the path (reading the file is the excluded I/O boundary). -/
def convert (content : Str) (language : Str) : Output :=
  let st := run content language
  { content := generateTestFile st.steps language
    filename := getFilename language
    stats := st.stats }

end Cypress

/-!
## The Playwright converter (`src/converters/playwright-converter.js`)
-/

namespace Playwright

/-- `this.supportedActions` of `PlaywrightConverter` (it also lists
`Wait.until`, for which `convertStep` has no case, so that kind falls to the
`default` TODO-comment fragment while still counting as converted). -/
def supportedActions : List Str :=
  [sl "get", sl "click", sl "sendKeys", sl "clear", sl "getTagName",
   sl "Navigation.refresh", sl "Navigation.back", sl "Navigation.forward",
   sl "Wait.until"]

/-- `extractCleanSelector(target)` — textually identical to the Cypress
converter's function. Each `locatorPart.replace(prefix, '')` replaces the
first occurrence of the prefix, which the guarding `startsWith` places at
index 0, so it drops exactly that prefix. -/
def extractCleanSelector (target : Str) : Str :=
  if target = [] then []
  else
    match findLocatorMatch target with
    | some locatorPart =>
      if (sl "name: ").isPrefixOf locatorPart then
        sl "[name=\"" ++ locatorPart.drop 6 ++ sl "\"]"
      else if (sl "css selector: ").isPrefixOf locatorPart then
        locatorPart.drop 14
      else if (sl "xpath: ").isPrefixOf locatorPart then
        sl "xpath=" ++ locatorPart.drop 7
      else if (sl "tag name: ").isPrefixOf locatorPart then
        locatorPart.drop 10
      else if (sl "id: ").isPrefixOf locatorPart then
        sl "#" ++ locatorPart.drop 4
      else if (sl "class: ").isPrefixOf locatorPart then
        sl "." ++ locatorPart.drop 7
      else locatorPart
    | none =>
      if (sl "http").isPrefixOf target ∨ (sl "[http").isPrefixOf target then
        target.filter fun c => !(c = '[' ∨ c = ']')
      else target

/-- `generatePageAction(action, selector, language, value = null)`. The
`typescript`, `javascript` and `default` cases of the switch share one body;
`python` has its own; an unknown action falls through to `return ''`. -/
def generatePageAction (action selector language : Str) (value : Option Str := none) : Str :=
  let escapedSelector := escSel selector
  let escapedValue := escVal value
  if language = sl "python" then
    if action = sl "goto" then sl "await page.goto(\"" ++ escapedSelector ++ sl "\")"
    else if action = sl "click" then sl "await page.click(\"" ++ escapedSelector ++ sl "\")"
    else if action = sl "fill" then
      sl "await page.fill(\"" ++ escapedSelector ++ sl "\", \"" ++ escapedValue ++ sl "\")"
    else if action = sl "reload" then sl "await page.reload()"
    else if action = sl "goBack" then sl "await page.go_back()"
    else if action = sl "goForward" then sl "await page.go_forward()"
    else []
  else
    if action = sl "goto" then sl "await page.goto(\"" ++ escapedSelector ++ sl "\");"
    else if action = sl "click" then sl "await page.click(\"" ++ escapedSelector ++ sl "\");"
    else if action = sl "fill" then
      sl "await page.fill(\"" ++ escapedSelector ++ sl "\", \"" ++ escapedValue ++ sl "\");"
    else if action = sl "reload" then sl "await page.reload();"
    else if action = sl "goBack" then sl "await page.goBack();"
    else if action = sl "goForward" then sl "await page.goForward();"
    else []

/-- `generateSelectOption(selector, option, language)`, always called with a
plain `{ label: text }` object. Its third statement evaluates
`(option.value || option).replace(...)`: `option.value` is `undefined`, so
the expression is the option object itself, which is truthy and has no
`.replace` method — a `TypeError` is thrown before the language switch is
reached, whatever the language. `none` models that throw. -/
def generateSelectOption (_selector _label _language : Str) : Option Str :=
  none

/-- `generateExpectation(assertion, selector, language)`. The Python branch
renders `assertion.replace('to', 'to_')`, which replaces the *first*
occurrence: `toBeVisible` becomes `to_BeVisible` (a quirk of the source kept
as is). -/
def generateExpectation (assertion selector language : Str) : Str :=
  let escapedSelector := escSel selector
  if language = sl "python" then
    sl "expect(page.locator(\"" ++ escapedSelector ++ sl "\"))." ++
      replaceFirst assertion (sl "to") (sl "to_") ++ sl "()"
  else
    sl "await expect(page.locator(\"" ++ escapedSelector ++ sl "\"))." ++
      assertion ++ sl "();"

/-- `generateComment(text, language)`. -/
def generateComment (text language : Str) : Str :=
  if language = sl "python" then sl "# " ++ text else sl "// " ++ text

/-- `guessInputValue(selector)` — textually identical to the Cypress
converter's function. -/
def guessInputValue (selector : Str) : Str :=
  if containsSubstr selector (sl "password") then sl "testPassword123"
  else if containsSubstr selector (sl "email") then sl "test@example.com"
  else if containsSubstr selector (sl "text") then sl "Sample text input"
  else if containsSubstr selector (sl "textarea") then sl "This is sample textarea content"
  else if containsSubstr selector (sl "name") then sl "John Doe"
  else sl "test-value"

/-- `convertStep(event, language)`. `none` models a thrown exception: a
truthy non-string `target` under `.match`, `textMatch[1]` on a failed
`:has-text` match, or the unconditional `TypeError` inside
`generateSelectOption`. -/
def convertStep (ev : TraceEvent) (language : Str) : Option Step :=
  match targetAsString ev.target with
  | none => none
  | some tgt =>
    let selector := extractCleanSelector tgt
    if ev.kind = sl "get" then
      some { action := generatePageAction (sl "goto") selector language
             comment := sl "Navigate to " ++ selector }
    else if ev.kind = sl "click" then
      let clickStep : Option Step :=
        some { action := generatePageAction (sl "click") selector language
               comment := sl "Click element (" ++ ev.durationMs ++ sl "ms)" }
      if containsSubstr selector (sl "option") then
        match matchParentOption selector with
        | some parentSelector =>
          if containsSubstr selector (sl ":has-text(") then
            match matchHasText selector with
            | some text =>
              match generateSelectOption parentSelector text language with
              | some a => some { action := a, comment := sl "Select option by text" }
              | none => none
            | none => none
          else clickStep
        | none => clickStep
      else clickStep
    else if ev.kind = sl "sendKeys" then
      let inputValue := guessInputValue selector
      some { action := generatePageAction (sl "fill") selector language (some inputValue)
             comment := sl "Fill input field" }
    else if ev.kind = sl "clear" then
      some { action := generatePageAction (sl "fill") selector language (some [])
             comment := sl "Clear input field" }
    else if ev.kind = sl "getTagName" then
      some { action := generateExpectation (sl "toBeVisible") selector language
             comment := sl "Verify element is visible" }
    else if ev.kind = sl "Navigation.refresh" then
      some { action := generatePageAction (sl "reload") [] language
             comment := sl "Refresh page" }
    else if ev.kind = sl "Navigation.back" then
      some { action := generatePageAction (sl "goBack") [] language
             comment := sl "Navigate back" }
    else if ev.kind = sl "Navigation.forward" then
      some { action := generatePageAction (sl "goForward") [] language
             comment := sl "Navigate forward" }
    else
      some { action := generateComment (sl "TODO: Implement " ++ ev.kind ++ sl " action") language
             comment := sl "Unsupported action: " ++ ev.kind }

/-- The per-conversion state of `PlaywrightConverter.convert` (no navigation
tracking in this converter). -/
structure ConvState where
  steps : List Step := []
  stats : Stats := {}
deriving Repr

/-- The body of the `lines.forEach` loop for one decoded `step.ok` event.
Unlike the Cypress converter, `totalActions` increments for *every*
`step.ok` event — there is no auto-handled allow-list here. -/
def processEvent (language : Str) (st : ConvState) (ev : TraceEvent) : ConvState :=
  let stats1 : Stats := { st.stats with totalActions := st.stats.totalActions + 1 }
  let action := ev.kind
  let stats2 : Stats :=
    { stats1 with actionBreakdown := bumpCount stats1.actionBreakdown action }
  if action ∈ supportedActions then
    match convertStep ev language with
    | some step =>
      { st with
        stats := { stats2 with convertedActions := stats2.convertedActions + 1 }
        steps := st.steps ++ [step] }
    | none => { st with stats := stats2 }
  else
    { st with
      stats := { stats2 with skippedActions := stats2.skippedActions + 1 }
      steps := st.steps ++
        [{ action := generateComment (sl "Unsupported action: " ++ action) language
           comment := sl "Original target: " ++ targetDisplay ev.target }] }

/-- The body of the `lines.forEach` loop for one raw line. -/
def processLine (language : Str) (st : ConvState) (line : Str) : ConvState :=
  match jsonParse line with
  | none => st
  | some j =>
    match jsonLookup j (sl "evt") with
    | some (.str s) =>
      if s = sl "step.ok" then processEvent language st (eventOfJson j) else st
    | _ => st

/-- The state after the whole `lines.forEach` loop of `convert`. -/
def run (content : Str) (language : Str) : ConvState :=
  (tracedLines content).foldl (processLine language) {}

/-- Literal text of the generated test file (from the source template). -/
def jsImports : Str :=
  sl "const \x7b test, expect \x7d = require('@playwright/test');"

/-- Literal text of the generated test file (from the source template). -/
def jsTemplateMid : Str :=
  sl "\n\ntest('Migrated Selenium Test', async (\x7b page \x7d) => \x7b\n    // This test was automatically migrated from Selenium trace\n    \n"

/-- Literal text of the generated test file (from the source template). -/
def jsTemplateSuffix : Str :=
  sl "\n    \n    // Add final verification\n    await expect(page).toHaveURL(/.+/);\n\x7d);\n\ntest.describe('Additional Test Scenarios', () => \x7b\n    test('Form Interaction Test', async (\x7b page \x7d) => \x7b\n        // Simplified form interaction test\n        await page.goto('https://www.selenium.dev/selenium/web/web-form.html');\n        \n        await page.fill('[name=\"my-text\"]', 'Sample text input');\n        await page.fill('[name=\"my-password\"]', 'testPassword123');\n        await page.selectOption('[name=\"my-select\"]', \x7b label: 'Two' \x7d);\n        await page.check('input[type=\"checkbox\"]');\n        \n        await expect(page.locator('[name=\"my-text\"]')).toHaveValue('Sample text input');\n        await expect(page.locator('input[type=\"checkbox\"]')).toBeChecked();\n    \x7d);\n\x7d);"

/-- Literal text of the generated test file (from the source template). -/
def tsImports : Str :=
  sl "import \x7b test, expect \x7d from '@playwright/test';"

/-- Literal text of the generated test file (from the source template). -/
def tsTemplateMid : Str :=
  sl "\n\ntest('Migrated Selenium Test', async (\x7b page \x7d) => \x7b\n    // This test was automatically migrated from Selenium trace\n    \n"

/-- Literal text of the generated test file (from the source template). -/
def tsTemplateSuffix : Str :=
  sl "\n    \n    // Add final verification\n    await expect(page).toHaveURL(/.+/);\n\x7d);\n\ntest.describe('Additional Test Scenarios', () => \x7b\n    test('Form Interaction Test', async (\x7b page \x7d) => \x7b\n        // Simplified form interaction test\n        await page.goto('https://www.selenium.dev/selenium/web/web-form.html');\n        \n        await page.fill('[name=\"my-text\"]', 'Sample text input');\n        await page.fill('[name=\"my-password\"]', 'testPassword123');\n        await page.selectOption('[name=\"my-select\"]', \x7b label: 'Two' \x7d);\n        await page.check('input[type=\"checkbox\"]');\n        \n        await expect(page.locator('[name=\"my-text\"]')).toHaveValue('Sample text input');\n        await expect(page.locator('input[type=\"checkbox\"]')).toBeChecked();\n    \x7d);\n\x7d);"

/-- Literal text of the generated test file (from the source template). -/
def pyImports : Str :=
  sl "import pytest\nfrom playwright.async_api import async_playwright, expect"

/-- Literal text of the generated test file (from the source template). -/
def pyTemplateMid : Str :=
  sl "\n\n@pytest.mark.asyncio\nasync def test_migrated_selenium_test():\n    \"\"\"This test was automatically migrated from Selenium trace\"\"\"\n    async with async_playwright() as p:\n        browser = await p.chromium.launch()\n        page = await browser.new_page()\n        \n"

/-- Literal text of the generated test file (from the source template). -/
def pyTemplateSuffix : Str :=
  sl "\n        \n        # Add final verification\n        await expect(page).to_have_url(re.compile(r\".+\"))\n        \n        await browser.close()\n\n@pytest.mark.asyncio\nasync def test_form_interaction():\n    \"\"\"Simplified form interaction test\"\"\"\n    async with async_playwright() as p:\n        browser = await p.chromium.launch()\n        page = await browser.new_page()\n        \n        await page.goto(\"https://www.selenium.dev/selenium/web/web-form.html\")\n        \n        await page.fill('[name=\"my-text\"]', \"Sample text input\")\n        await page.fill('[name=\"my-password\"]', \"testPassword123\")\n        await page.select_option('[name=\"my-select\"]', label=\"Two\")\n        await page.check('input[type=\"checkbox\"]')\n        \n        await expect(page.locator('[name=\"my-text\"]')).to_have_value(\"Sample text input\")\n        await expect(page.locator('input[type=\"checkbox\"]')).to_be_checked()\n        \n        await browser.close()"

/-- The `steps.map(...)` + `join('\n\n')` test body of the JS/TS templates. -/
def testBody (steps : List Step) : Str :=
  joinSep (sl "\n\n")
    (steps.map fun step => sl "    // " ++ step.comment ++ sl "\n    " ++ step.action)

/-- The `steps.map(...)` + `join('\n\n')` test body of the Python template. -/
def testBodyPy (steps : List Step) : Str :=
  joinSep (sl "\n\n")
    (steps.map fun step => sl "    # " ++ step.comment ++ sl "\n    " ++ step.action)

/-- `generateJavaScriptTest(steps)`. -/
def generateJavaScriptTest (steps : List Step) : Str :=
  jsImports ++ jsTemplateMid ++ testBody steps ++ jsTemplateSuffix

/-- `generateTypeScriptTest(steps)`. -/
def generateTypeScriptTest (steps : List Step) : Str :=
  tsImports ++ tsTemplateMid ++ testBody steps ++ tsTemplateSuffix

/-- `generatePythonTest(steps)`. -/
def generatePythonTest (steps : List Step) : Str :=
  pyImports ++ pyTemplateMid ++ testBodyPy steps ++ pyTemplateSuffix

/-- `generateTestFile(steps, language)`: `python` and `typescript` get their
templates, everything else (`javascript` and the `default` case alike) the
JavaScript one. -/
def generateTestFile (steps : List Step) (language : Str) : Str :=
  if language = sl "python" then generatePythonTest steps
  else if language = sl "typescript" then generateTypeScriptTest steps
  else generateJavaScriptTest steps

/-- `getFilename(language)`. -/
def getFilename (language : Str) : Str :=
  if language = sl "python" then sl "test_migrated_selenium.py"
  else if language = sl "typescript" then sl "migrated-selenium.spec.ts"
  else sl "migrated-selenium.spec.js"

/-- The `{content, filename, stats}` record `convert` resolves with. -/
structure Output where
  content : Str
  filename : Str
  stats : Stats
deriving Repr

/-- `convert(traceFilePath, language)`, with the already-read file contents
in place of the path (reading the file is the excluded I/O boundary). -/
def convert (content : Str) (language : Str) : Output :=
  let st := run content language
  { content := generateTestFile st.steps language
    filename := getFilename language
    stats := st.stats }

end Playwright


/-!
## Basic lemmas about the shared helpers
-/

theorem countOf_bumpCount (b : List (Str × Nat)) (k : Str) :
    countOf (bumpCount b k) k = countOf b k + 1 := by
  induction b with
  | nil => simp [bumpCount, countOf]
  | cons hd tl ih =>
    obtain ⟨k', n⟩ := hd
    by_cases h : k' = k
    · simp [bumpCount, countOf, h]
    · simp [bumpCount, countOf, h, ih]

theorem escapeQuotes_nil : escapeQuotes [] = [] := rfl

theorem escSel_eq_escapeQuotes (s : Str) : escSel s = escapeQuotes s := by
  unfold escSel
  by_cases h : s = []
  · subst h; rfl
  · simp [h]

theorem escVal_some (s : Str) : escVal (some s) = escapeQuotes s := by
  simp [escVal, escSel_eq_escapeQuotes]

/-- Every double quote of `escapeQuotes s` is directly preceded by the
backslash the replacement inserted. -/
theorem escapeQuotes_quote_preceded :
    ∀ (s u v : Str), escapeQuotes s = u ++ '"' :: v → ∃ u', u = u' ++ ['\\'] := by
  intro s
  induction s with
  | nil =>
    intro u v h
    rw [show escapeQuotes ([] : Str) = [] from rfl] at h
    cases u <;> simp at h
  | cons c rest ih =>
    intro u v h
    by_cases hc : c = '"'
    · subst hc
      have h' : '\\' :: '"' :: escapeQuotes rest = u ++ '"' :: v := by
        simpa [escapeQuotes] using h
      match u, h' with
      | [], h' => exact absurd (List.head_eq_of_cons_eq h') (by decide)
      | [u1], h' =>
        exact ⟨[], by simpa using (List.head_eq_of_cons_eq h').symm⟩
      | u1 :: u2 :: u3, h' =>
        have h1 := List.head_eq_of_cons_eq h'
        have h2 := List.tail_eq_of_cons_eq h'
        have h3 := List.head_eq_of_cons_eq h2
        have h4 := List.tail_eq_of_cons_eq h2
        obtain ⟨w, hw⟩ := ih u3 v h4.symm.symm
        exact ⟨u1 :: u2 :: w, by simp [hw]⟩
    · have h' : c :: escapeQuotes rest = u ++ '"' :: v := by
        simpa [escapeQuotes, hc] using h
      match u, h' with
      | [], h' => exact absurd (List.head_eq_of_cons_eq h') hc
      | u1 :: u2, h' =>
        obtain ⟨w, hw⟩ := ih u2 v (List.tail_eq_of_cons_eq h')
        exact ⟨u1 :: w, by simp [hw]⟩

theorem splitOnNl_ne_nil (l : Str) : splitOnNl l ≠ [] := by
  cases l with
  | nil => simp [splitOnNl]
  | cons c rest =>
    unfold splitOnNl
    by_cases h : c = '\n'
    · simp [h]
    · simp only [if_neg h]
      cases splitOnNl rest <;> simp

theorem splitOnNl_append (a b : Str) :
    splitOnNl (a ++ '\n' :: b) = splitOnNl a ++ splitOnNl b := by
  induction a with
  | nil => simp [splitOnNl]
  | cons c rest ih =>
    by_cases h : c = '\n'
    · subst h
      show splitOnNl ('\n' :: (rest ++ '\n' :: b)) = splitOnNl ('\n' :: rest) ++ splitOnNl b
      rw [splitOnNl, splitOnNl]
      simp [ih]
    · show splitOnNl (c :: (rest ++ '\n' :: b)) = splitOnNl (c :: rest) ++ splitOnNl b
      rw [splitOnNl, splitOnNl]
      simp only [if_neg h]
      rw [ih]
      cases hs : splitOnNl rest with
      | nil => exact absurd hs (splitOnNl_ne_nil rest)
      | cons l ls => simp [hs]

theorem splitOnNl_no_nl (l : Str) (h : '\n' ∉ l) : splitOnNl l = [l] := by
  induction l with
  | nil => rfl
  | cons c rest ih =>
    have hc : c ≠ '\n' := fun e => h (e ▸ List.mem_cons_self _ _)
    have hr : '\n' ∉ rest := fun m => h (List.mem_cons_of_mem _ m)
    unfold splitOnNl
    rw [if_neg hc, ih hr]


/-!
## The lazy capture never extends past a closing bracket
-/

theorem captureAux_spec :
    ∀ (l acc v : Str), captureAux acc l = some v → ∃ w, v = acc.reverse ++ w ∧ ']' ∉ w := by
  intro l
  induction l with
  | nil => intro acc v h; simp [captureAux] at h
  | cons c rest ih =>
    intro acc v h
    unfold captureAux at h
    by_cases hc : c = ']'
    · rw [if_pos hc] at h
      refine ⟨[], ?_, by simp⟩
      simpa using (Option.some.inj h).symm
    · rw [if_neg hc] at h
      by_cases hd : dotChar c
      · rw [if_pos hd] at h
        obtain ⟨w, hw, hnw⟩ := ih (c :: acc) v h
        refine ⟨c :: w, by simpa [List.append_assoc] using hw, ?_⟩
        intro hm
        rcases List.mem_cons.mp hm with he | hm2
        · exact hc he.symm
        · exact hnw hm2
      · rw [if_neg hd] at h; cases h

theorem matchCapture_tail (l v : Str) (h : matchCapture l = some v) : ']' ∉ v.tail := by
  cases l with
  | nil => simp [matchCapture] at h
  | cons c rest =>
    simp only [matchCapture] at h
    by_cases hd : dotChar c
    · rw [if_pos hd] at h
      obtain ⟨w, hw, hnw⟩ := captureAux_spec rest [c] v h
      subst hw
      simpa using hnw
    · rw [if_neg hd] at h; cases h

theorem locatorTailAt_tail (l v : Str) (h : locatorTailAt l = some v) : ']' ∉ v.tail := by
  unfold locatorTailAt at h
  by_cases hp : (sl "] -> ").isPrefixOf l
  · rw [if_pos hp] at h; exact matchCapture_tail _ _ h
  · rw [if_neg hp] at h; cases h

theorem afterBrackets_tail : ∀ (l v : Str), afterBrackets l = some v → ']' ∉ v.tail := by
  intro l
  induction l with
  | nil =>
    intro v h
    rw [show afterBrackets [] = none from rfl] at h
    cases h
  | cons c rest ih =>
    intro v h
    simp only [afterBrackets] at h
    cases hlt : locatorTailAt (c :: rest) with
    | some w =>
      rw [hlt] at h
      obtain rfl := Option.some.inj h
      exact locatorTailAt_tail _ _ hlt
    | none =>
      rw [hlt] at h
      by_cases hd : dotChar c
      · rw [if_pos hd] at h; exact ih v h
      · rw [if_neg hd] at h; cases h

theorem findLocatorMatch_tail : ∀ (t v : Str), findLocatorMatch t = some v → ']' ∉ v.tail := by
  intro t
  induction t with
  | nil =>
    intro v h
    rw [show findLocatorMatch [] = none from rfl] at h
    cases h
  | cons c rest ih =>
    intro v h
    simp only [findLocatorMatch] at h
    split at h
    · cases hab : afterBrackets ‹List Char› with
      | some w =>
        rw [hab] at h
        obtain rfl := Option.some.inj h
        exact afterBrackets_tail _ _ hab
      | none =>
        rw [hab] at h
        exact ih v h
    · exact ih v h

theorem contains_textarea_imp_text (s : Str) :
    containsSubstr s (sl "textarea") = true → containsSubstr s (sl "text") = true := by
  induction s with
  | nil => intro h; exact absurd h (by decide)
  | cons c rest ih =>
    intro h
    unfold containsSubstr at h ⊢
    by_cases hp : (sl "textarea").isPrefixOf (c :: rest)
    · have hp2 : (sl "text").isPrefixOf (c :: rest) := by
        have h1 : sl "textarea" <+: (c :: rest) := List.isPrefixOf_iff_prefix.mp hp
        have h2 : sl "text" <+: sl "textarea" := ⟨sl "area", by decide⟩
        exact List.isPrefixOf_iff_prefix.mpr (h2.trans h1)
      rw [if_pos hp2]
    · rw [if_neg hp] at h
      have hrec := ih h
      by_cases hp2 : (sl "text").isPrefixOf (c :: rest)
      · rw [if_pos hp2]
      · rw [if_neg hp2]; exact hrec

/-- The five values `guessInputValue` can actually return; the
`'textarea'` placeholder paragraph is not among them. -/
def guessReachableOutputs : List Str :=
  [sl "testPassword123", sl "test@example.com", sl "Sample text input",
   sl "John Doe", sl "test-value"]


/-!
## Claim-side definitions

The two guard predicates below are written from the WORDS of claim C1 (and
its amendment), to be compared with the behaviour of the code; the concrete
traces are the claim's test inputs.
-/

/-- Claim C1's "exactly when" condition as stated: `navigationHistory` has at
least 2 entries and the second-to-last recorded entry (possibly the recorded
`null`) differs from `currentOrigin`. -/
def c1ClaimGuard (nav : List (Option Str)) (currentOrigin : Option Str) : Bool :=
  decide (2 ≤ nav.length) && decide (nav.getD (nav.length - 2) none ≠ currentOrigin)

/-- The amended guard: at least 2 entries, and the second-to-last recorded
origin is non-null and differs from `currentOrigin`. -/
def c1AmendedGuard (nav : List (Option Str)) (currentOrigin : Option Str) : Bool :=
  decide (2 ≤ nav.length) &&
    (match nav.getD (nav.length - 2) none with
     | some p => decide (some p ≠ currentOrigin)
     | none => false)

/-- Claim C1's cross-origin trace: `get` to two different origins, then
`Navigation.back`. -/
def c1TraceCross : Str :=
  sl "\x7b\"evt\":\"step.ok\",\"kind\":\"get\",\"target\":\"https://a.test/x\"\x7d\n\x7b\"evt\":\"step.ok\",\"kind\":\"get\",\"target\":\"https://b.test/y\"\x7d\n\x7b\"evt\":\"step.ok\",\"kind\":\"Navigation.back\"\x7d"

/-- Claim C1's same-origin trace: two `get`s on one origin, then
`Navigation.back`. -/
def c1TraceSame : Str :=
  sl "\x7b\"evt\":\"step.ok\",\"kind\":\"get\",\"target\":\"https://a.test/x\"\x7d\n\x7b\"evt\":\"step.ok\",\"kind\":\"get\",\"target\":\"https://a.test/z\"\x7d\n\x7b\"evt\":\"step.ok\",\"kind\":\"Navigation.back\"\x7d"

/-- A trace whose first `get` has a target `new URL` cannot parse, so the
recorded origin is `null`; then a `get` on a real origin, then
`Navigation.back`. -/
def c1TraceNullOrigin : Str :=
  sl "\x7b\"evt\":\"step.ok\",\"kind\":\"get\",\"target\":\"notaurl\"\x7d\n\x7b\"evt\":\"step.ok\",\"kind\":\"get\",\"target\":\"https://a.test/x\"\x7d\n\x7b\"evt\":\"step.ok\",\"kind\":\"Navigation.back\"\x7d"

/-- The first two lines of `c1TraceNullOrigin`: the state in force when the
`Navigation.back` event is processed. -/
def c1TraceNullOriginPrefix : Str :=
  sl "\x7b\"evt\":\"step.ok\",\"kind\":\"get\",\"target\":\"notaurl\"\x7d\n\x7b\"evt\":\"step.ok\",\"kind\":\"get\",\"target\":\"https://a.test/x\"\x7d"

/-- A one-line trace with a single auto-handled `findElement` event. -/
def findElementTrace : Str :=
  sl "\x7b\"evt\":\"step.ok\",\"kind\":\"findElement\"\x7d"

/-!
## The claims
-/

/-- C2. Locator round-trip for both converters' `extractCleanSelector`:
`[[drv] -> id: foo]` renders `#foo`, `[[drv] -> name: bar]` renders
`[name="bar"]`, `[[drv] -> css selector: .x > y]` renders `.x > y`
unchanged, and the unmatched string `plain-target` is returned verbatim. -/
theorem c2_locator_roundtrip :
    Cypress.extractCleanSelector (sl "[[drv] -> id: foo]") = sl "#foo" ∧
    Cypress.extractCleanSelector (sl "[[drv] -> name: bar]") = sl "[name=\"bar\"]" ∧
    Cypress.extractCleanSelector (sl "[[drv] -> css selector: .x > y]") = sl ".x > y" ∧
    Cypress.extractCleanSelector (sl "plain-target") = sl "plain-target" ∧
    Playwright.extractCleanSelector (sl "[[drv] -> id: foo]") = sl "#foo" ∧
    Playwright.extractCleanSelector (sl "[[drv] -> name: bar]") = sl "[name=\"bar\"]" ∧
    Playwright.extractCleanSelector (sl "[[drv] -> css selector: .x > y]") = sl ".x > y" ∧
    Playwright.extractCleanSelector (sl "plain-target") = sl "plain-target" := by
  decide

/-- C4. The `'textarea'` case of `guessInputValue` is dead code: any selector
containing `textarea` also contains `text`, so the earlier `text` check wins
and the fabricated value is `Sample text input`, never the placeholder
paragraph `This is sample textarea content`; in particular a `sendKeys` event
on a bare `textarea` selector fills the `text` placeholder. Every reachable
output lies in `guessReachableOutputs`, which does not include the
paragraph. -/
theorem c4_textarea_branch_unreachable :
    Cypress.guessInputValue (sl "textarea") = sl "Sample text input" ∧
    Playwright.guessInputValue (sl "textarea") = sl "Sample text input" ∧
    Cypress.convertStep
        { kind := sl "sendKeys", target := some (.str (sl "[[drv] -> tag name: textarea]")),
          durationMs := sl "5" } (sl "javascript") none [] =
      some { action := sl "cy.get(\"textarea\").type(\"Sample text input\")"
             comment := sl "Type into input field" } ∧
    (∀ s : Str, Cypress.guessInputValue s ∈ guessReachableOutputs) ∧
    (∀ s : Str, Playwright.guessInputValue s ∈ guessReachableOutputs) ∧
    guessReachableOutputs.contains (sl "This is sample textarea content") = false := by
  refine ⟨by decide, by decide, by decide, ?_, ?_, by decide⟩ <;>
  · intro s
    simp only [Cypress.guessInputValue, Playwright.guessInputValue]
    split_ifs with h1 h2 h3 h4 h5 <;>
      first
      | exact absurd (contains_textarea_imp_text s h4) h3
      | simp [guessReachableOutputs]

/-- C8. Conversion is a pure function of the trace text and the language:
two invocations with identical inputs yield identical documents, filenames
and statistics (the embedding is deterministic by construction, as is the
source, which consults no clock, randomness or shared state). -/
theorem c8_convert_deterministic :
    ∀ (content lang : Str),
      Cypress.convert content lang = Cypress.convert content lang ∧
      Playwright.convert content lang = Playwright.convert content lang :=
  fun _ _ => ⟨rfl, rfl⟩

/-- C10. The locator regexp captures lazily up to the first `]`, so a
`css selector:` value with its own `]` is truncated there: the example target
yields `a[href="x"` (the attribute selector's closing bracket is lost), and
in general a successful capture never contains `]` beyond its first
character. -/
theorem c10_capture_truncated_at_first_bracket :
    Cypress.extractCleanSelector (sl "[[drv] -> css selector: a[href=\"x\"]]") = sl "a[href=\"x\"" ∧
    Playwright.extractCleanSelector (sl "[[drv] -> css selector: a[href=\"x\"]]") = sl "a[href=\"x\"" ∧
    (∀ t v : Str, findLocatorMatch t = some v → ']' ∉ v.tail) := by
  exact ⟨by decide, by decide, findLocatorMatch_tail⟩

/-- C1, counterexample to the claim as stated. In this trace the first `get`
records a `null` origin (its target is not a URL), so when `Navigation.back`
is processed the history is `[null, "https://a.test"]` and the second-to-last
recorded entry (`null`) differs from `currentOrigin` — the claim's "exactly
when" condition holds — yet the converter emits the real `cy.go('back')`
action, because the code additionally requires the second-to-last origin to
be non-null. -/
theorem c1_counterexample_null_origin :
    (Cypress.run c1TraceNullOriginPrefix (sl "javascript")).navigationHistory =
      [none, some (sl "https://a.test")] ∧
    (Cypress.run c1TraceNullOriginPrefix (sl "javascript")).currentOrigin =
      some (sl "https://a.test") ∧
    c1ClaimGuard [none, some (sl "https://a.test")] (some (sl "https://a.test")) = true ∧
    (Cypress.run c1TraceNullOrigin (sl "javascript")).steps[2]? =
      some { action := sl "cy.go('back')", comment := sl "Navigate back" } := by
  decide

/-- C3, counterexample for the Playwright converter: it has no auto-handled
allow-list, so a single `findElement` event (claimed to leave `totalActions`
unchanged) increments `totalActions` to 1 (and `skippedActions` too,
emitting an unsupported-action comment fragment). -/
theorem c3_counterexample_playwright_counts_auto :
    (Playwright.convert findElementTrace (sl "javascript")).stats.totalActions = 1 ∧
    (Playwright.convert findElementTrace (sl "javascript")).stats.skippedActions = 1 ∧
    countOf (Playwright.convert findElementTrace (sl "javascript")).stats.actionBreakdown
      (sl "findElement") = 1 := by
  decide


/-- The Cypress converter's supported and auto-handled action sets are
disjoint. -/
theorem cy_auto_not_supported :
    ∀ k ∈ Cypress.autoHandledActions, k ∉ Cypress.supportedActions := by
  decide

/-- C3 (amended). For the Cypress converter, an auto-handled `step.ok` event
leaves `totalActions` (and the emitted steps) unchanged while bumping
`actionBreakdown[kind]` by one; the Playwright converter has no allow-list
and increments `totalActions` for every `step.ok` event. -/
theorem c3_autohandled_not_counted :
    (Cypress.convert findElementTrace (sl "javascript")).stats.totalActions = 0 ∧
    countOf (Cypress.convert findElementTrace (sl "javascript")).stats.actionBreakdown
      (sl "findElement") = 1 ∧
    (∀ (lang : Str) (st : Cypress.ConvState) (ev : TraceEvent),
      ev.kind ∈ Cypress.autoHandledActions →
        (Cypress.processEvent lang st ev).stats.totalActions = st.stats.totalActions ∧
        countOf (Cypress.processEvent lang st ev).stats.actionBreakdown ev.kind =
          countOf st.stats.actionBreakdown ev.kind + 1 ∧
        (Cypress.processEvent lang st ev).steps = st.steps) ∧
    (∀ (lang : Str) (st : Playwright.ConvState) (ev : TraceEvent),
      (Playwright.processEvent lang st ev).stats.totalActions = st.stats.totalActions + 1 ∧
      countOf (Playwright.processEvent lang st ev).stats.actionBreakdown ev.kind =
        countOf st.stats.actionBreakdown ev.kind + 1) := by
  refine ⟨by decide, by decide, ?_, ?_⟩
  · intro lang st ev hauto
    have hsup : ev.kind ∉ Cypress.supportedActions := cy_auto_not_supported ev.kind hauto
    simp only [Cypress.processEvent, eq_false hsup, eq_true hauto, if_true, if_false]
    simp [countOf_bumpCount]
  · intro lang st ev
    by_cases hsup : ev.kind ∈ Playwright.supportedActions
    · simp only [Playwright.processEvent, eq_true hsup, if_true]
      cases hcs : Playwright.convertStep ev lang with
      | some step => simp [hcs, countOf_bumpCount]
      | none => simp [hcs, countOf_bumpCount]
    · simp only [Playwright.processEvent, eq_false hsup, if_false]
      simp [countOf_bumpCount]

/-- C1 (amended). The two concrete traces behave as the claim states
(cross-origin `Navigation.back` is commented out, same-origin is real); in
general, for any `Navigation.back` event whose `target` field is a string or
absent, the emitted fragment is the disabled comment exactly when
`navigationHistory` has at least two entries and the second-to-last
*non-null* recorded origin differs from `currentOrigin` (a recorded `null`
origin never fires the guard). -/
theorem c1_crossorigin_back_guard :
    (Cypress.run c1TraceCross (sl "javascript")).steps[2]? =
      some { action := sl "// cy.go('back') - Skipped due to cross-origin navigation"
             comment := sl "Navigate back (skipped - cross-origin)" } ∧
    (Cypress.run c1TraceSame (sl "javascript")).steps[2]? =
      some { action := sl "cy.go('back')", comment := sl "Navigate back" } ∧
    (∀ (tgt dur lang : Str) (co : Option Str) (nav : List (Option Str)),
      Cypress.convertStep
          { kind := sl "Navigation.back", target := some (.str tgt), durationMs := dur }
          lang co nav =
        some (if c1AmendedGuard nav co then
                { action := sl "// cy.go('back') - Skipped due to cross-origin navigation"
                  comment := sl "Navigate back (skipped - cross-origin)" }
              else { action := sl "cy.go('back')", comment := sl "Navigate back" })) ∧
    (∀ (dur lang : Str) (co : Option Str) (nav : List (Option Str)),
      Cypress.convertStep
          { kind := sl "Navigation.back", target := none, durationMs := dur }
          lang co nav =
        some (if c1AmendedGuard nav co then
                { action := sl "// cy.go('back') - Skipped due to cross-origin navigation"
                  comment := sl "Navigate back (skipped - cross-origin)" }
              else { action := sl "cy.go('back')", comment := sl "Navigate back" })) := by
  refine ⟨by decide, by decide, ?_, ?_⟩ <;>
  · first
    | intro tgt dur lang co nav
    | intro dur lang co nav
    have e1 : (sl "Navigation.back" = sl "get") = False := eq_false (by decide)
    have e2 : (sl "Navigation.back" = sl "click") = False := eq_false (by decide)
    have e3 : (sl "Navigation.back" = sl "sendKeys") = False := eq_false (by decide)
    have e4 : (sl "Navigation.back" = sl "clear") = False := eq_false (by decide)
    have e5 : (sl "Navigation.back" = sl "getTagName") = False := eq_false (by decide)
    have e6 : (sl "Navigation.back" = sl "Navigation.refresh") = False := eq_false (by decide)
    have e7 : (sl "Navigation.back" = sl "Navigation.back") = True := eq_true rfl
    simp only [Cypress.convertStep, targetAsString, e1, e2, e3, e4, e5, e6, e7,
      if_true, if_false]
    by_cases hlen : 1 < nav.length
    · have hlen2 : 2 ≤ nav.length := hlen
      cases hp : nav[nav.length - 2]?.getD none with
      | none => simp [c1AmendedGuard, List.getD_eq_getElem?_getD, hp, hlen, hlen2]
      | some p =>
        cases co with
        | none => simp [c1AmendedGuard, List.getD_eq_getElem?_getD, decide_not, hp, hlen, hlen2]
        | some q =>
          by_cases heq : p = q
          · subst heq
            simp [c1AmendedGuard, List.getD_eq_getElem?_getD, decide_not, hp, hlen, hlen2]
          · simp [c1AmendedGuard, List.getD_eq_getElem?_getD, decide_not, hp, hlen, hlen2,
              heq, Ne.symm heq]
    · have hlen2 : ¬ 2 ≤ nav.length := hlen
      simp [c1AmendedGuard, List.getD_eq_getElem?_getD, hlen, hlen2]


/-!
## Malformed and blank lines (claim C5)
-/

theorem cy_processLine_parse_fail (lang : Str) (st : Cypress.ConvState) (line : Str)
    (h : jsonParse line = none) : Cypress.processLine lang st line = st := by
  unfold Cypress.processLine
  rw [h]

theorem pw_processLine_parse_fail (lang : Str) (st : Playwright.ConvState) (line : Str)
    (h : jsonParse line = none) : Playwright.processLine lang st line = st := by
  unfold Playwright.processLine
  rw [h]

/-- Inserting one extra line that is blank or that the per-line processing
ignores does not change a fold over the kept trace lines. -/
theorem foldLines_insert {σ : Type} (f : σ → Str → σ) (init : σ) (a b line : Str)
    (hnl : '\n' ∉ line) (h : keepLine line = false ∨ ∀ st, f st line = st) :
    (tracedLines (a ++ '\n' :: (line ++ '\n' :: b))).foldl f init =
      (tracedLines (a ++ '\n' :: b)).foldl f init := by
  unfold tracedLines
  rw [splitOnNl_append a (line ++ '\n' :: b), splitOnNl_append line b,
    splitOnNl_no_nl line hnl, splitOnNl_append a b]
  rw [List.filter_append, List.filter_append, List.filter_append]
  by_cases hk : keepLine line
  · have hid : ∀ st, f st line = st := by
      rcases h with h | h
      · exact absurd hk (by simp [h])
      · exact h
    have he : List.filter keepLine [line] = [line] := by simp [hk]
    rw [he, List.foldl_append, List.foldl_append, List.foldl_append]
    simp [hid]
  · have hk' : keepLine line = false := by simpa using hk
    have he : List.filter keepLine [line] = [] := by simp [hk']
    rw [he]
    simp

/-- A well-formed two-event trace interleaved with a blank line and a line
that is not JSON. -/
def c5TraceWithNoise : Str :=
  sl "\x7b\"evt\":\"step.ok\",\"kind\":\"get\",\"target\":\"https://a.test/x\"\x7d\n   \nnot json \x7b\n\x7b\"evt\":\"step.ok\",\"kind\":\"click\",\"target\":\"[[d] -> id: btn]\",\"durationMs\":42\x7d"

/-- The same trace without the noise lines. -/
def c5TraceClean : Str :=
  sl "\x7b\"evt\":\"step.ok\",\"kind\":\"get\",\"target\":\"https://a.test/x\"\x7d\n\x7b\"evt\":\"step.ok\",\"kind\":\"click\",\"target\":\"[[d] -> id: btn]\",\"durationMs\":42\x7d"

/-- C5. A line that fails to decode as JSON leaves the whole per-line state
(statistics and steps) of either converter unchanged, and inserting such a
line — or a blank line — anywhere in the trace leaves both converters'
entire output (document, filename and statistics) unchanged, the remaining
lines being processed exactly as before. -/
theorem c5_malformed_lines_dropped :
    Cypress.convert c5TraceWithNoise (sl "javascript") =
      Cypress.convert c5TraceClean (sl "javascript") ∧
    Playwright.convert c5TraceWithNoise (sl "javascript") =
      Playwright.convert c5TraceClean (sl "javascript") ∧
    (∀ (lang : Str) (st : Cypress.ConvState) (line : Str),
      jsonParse line = none → Cypress.processLine lang st line = st) ∧
    (∀ (lang : Str) (st : Playwright.ConvState) (line : Str),
      jsonParse line = none → Playwright.processLine lang st line = st) ∧
    (∀ (lang a b line : Str), '\n' ∉ line →
      (keepLine line = false ∨ jsonParse line = none) →
      Cypress.convert (a ++ '\n' :: (line ++ '\n' :: b)) lang =
        Cypress.convert (a ++ '\n' :: b) lang ∧
      Playwright.convert (a ++ '\n' :: (line ++ '\n' :: b)) lang =
        Playwright.convert (a ++ '\n' :: b) lang) := by
  refine ⟨rfl, rfl, cy_processLine_parse_fail, pw_processLine_parse_fail, ?_⟩
  intro lang a b line hnl h
  constructor
  · have hc : Cypress.run (a ++ '\n' :: (line ++ '\n' :: b)) lang =
        Cypress.run (a ++ '\n' :: b) lang := by
      unfold Cypress.run
      exact foldLines_insert _ _ a b line hnl
        (h.imp id fun hp st => cy_processLine_parse_fail lang st line hp)
    unfold Cypress.convert
    rw [hc]
  · have hc : Playwright.run (a ++ '\n' :: (line ++ '\n' :: b)) lang =
        Playwright.run (a ++ '\n' :: b) lang := by
      unfold Playwright.run
      exact foldLines_insert _ _ a b line hnl
        (h.imp id fun hp st => pw_processLine_parse_fail lang st line hp)
    unfold Playwright.convert
    rw [hc]

/-!
## The statistics inequality (claim C9)
-/

theorem cy_processEvent_bound (lang : Str) (st : Cypress.ConvState) (ev : TraceEvent)
    (h : st.stats.convertedActions + st.stats.skippedActions ≤ st.stats.totalActions) :
    (Cypress.processEvent lang st ev).stats.convertedActions +
      (Cypress.processEvent lang st ev).stats.skippedActions ≤
      (Cypress.processEvent lang st ev).stats.totalActions := by
  by_cases hsup : ev.kind ∈ Cypress.supportedActions
  · have hauto : ev.kind ∉ Cypress.autoHandledActions := fun ha =>
      cy_auto_not_supported ev.kind ha hsup
    simp only [Cypress.processEvent, eq_true hsup, eq_false hauto, if_true, if_false]
    cases hcs : Cypress.convertStep ev lang st.currentOrigin st.navigationHistory with
    | some step => split <;> (try split) <;> (try split) <;> (try simp [apply_ite]) <;> omega
    | none => (try simp) <;> omega
  · by_cases hauto : ev.kind ∈ Cypress.autoHandledActions
    · simp only [Cypress.processEvent, eq_false hsup, eq_true hauto, if_true, if_false]
      simpa using h
    · simp only [Cypress.processEvent, eq_false hsup, eq_false hauto, if_true, if_false]
      (try simp) <;> omega

theorem pw_processEvent_bound (lang : Str) (st : Playwright.ConvState) (ev : TraceEvent)
    (h : st.stats.convertedActions + st.stats.skippedActions ≤ st.stats.totalActions) :
    (Playwright.processEvent lang st ev).stats.convertedActions +
      (Playwright.processEvent lang st ev).stats.skippedActions ≤
      (Playwright.processEvent lang st ev).stats.totalActions := by
  by_cases hsup : ev.kind ∈ Playwright.supportedActions
  · simp only [Playwright.processEvent, eq_true hsup, if_true]
    cases hcs : Playwright.convertStep ev lang with
    | some step => (try simp) <;> omega
    | none => (try simp) <;> omega
  · simp only [Playwright.processEvent, eq_false hsup, if_false]
    (try simp) <;> omega

theorem cy_processLine_bound (lang : Str) (st : Cypress.ConvState) (line : Str)
    (h : st.stats.convertedActions + st.stats.skippedActions ≤ st.stats.totalActions) :
    (Cypress.processLine lang st line).stats.convertedActions +
      (Cypress.processLine lang st line).stats.skippedActions ≤
      (Cypress.processLine lang st line).stats.totalActions := by
  unfold Cypress.processLine
  split
  · exact h
  · split
    · split
      · exact cy_processEvent_bound _ _ _ h
      · exact h
    · exact h

theorem pw_processLine_bound (lang : Str) (st : Playwright.ConvState) (line : Str)
    (h : st.stats.convertedActions + st.stats.skippedActions ≤ st.stats.totalActions) :
    (Playwright.processLine lang st line).stats.convertedActions +
      (Playwright.processLine lang st line).stats.skippedActions ≤
      (Playwright.processLine lang st line).stats.totalActions := by
  unfold Playwright.processLine
  split
  · exact h
  · split
    · split
      · exact pw_processEvent_bound _ _ _ h
      · exact h
    · exact h

/-- C9. At the end of every conversion, for both converters,
`convertedActions + skippedActions ≤ totalActions` (all counters are
natural numbers of the embedding, hence non-negative by construction). -/
theorem c9_stats_inequality :
    ∀ (content lang : Str),
      (Cypress.convert content lang).stats.convertedActions +
        (Cypress.convert content lang).stats.skippedActions ≤
        (Cypress.convert content lang).stats.totalActions ∧
      (Playwright.convert content lang).stats.convertedActions +
        (Playwright.convert content lang).stats.skippedActions ≤
        (Playwright.convert content lang).stats.totalActions := by
  intro content lang
  constructor
  · show (Cypress.run content lang).stats.convertedActions +
      (Cypress.run content lang).stats.skippedActions ≤
      (Cypress.run content lang).stats.totalActions
    unfold Cypress.run
    have hall : ∀ (ls : List Str) (st : Cypress.ConvState),
        st.stats.convertedActions + st.stats.skippedActions ≤ st.stats.totalActions →
        (ls.foldl (Cypress.processLine lang) st).stats.convertedActions +
          (ls.foldl (Cypress.processLine lang) st).stats.skippedActions ≤
          (ls.foldl (Cypress.processLine lang) st).stats.totalActions := by
      intro ls
      induction ls with
      | nil => intro st hst; exact hst
      | cons l rest ih => intro st hst; exact ih _ (cy_processLine_bound lang st l hst)
    exact hall _ _ (by simp)
  · show (Playwright.run content lang).stats.convertedActions +
      (Playwright.run content lang).stats.skippedActions ≤
      (Playwright.run content lang).stats.totalActions
    unfold Playwright.run
    have hall : ∀ (ls : List Str) (st : Playwright.ConvState),
        st.stats.convertedActions + st.stats.skippedActions ≤ st.stats.totalActions →
        (ls.foldl (Playwright.processLine lang) st).stats.convertedActions +
          (ls.foldl (Playwright.processLine lang) st).stats.skippedActions ≤
          (ls.foldl (Playwright.processLine lang) st).stats.totalActions := by
      intro ls
      induction ls with
      | nil => intro st hst; exact hst
      | cons l rest ih => intro st hst; exact ih _ (pw_processLine_bound lang st l hst)
    exact hall _ _ (by simp)


/-!
## Language fallback (claim C6)
-/

theorem pw_generatePageAction_lang (a s : Str) (v : Option Str) (lang : Str)
    (h : lang ≠ sl "python") :
    Playwright.generatePageAction a s lang v =
      Playwright.generatePageAction a s (sl "javascript") v := by
  unfold Playwright.generatePageAction
  simp only [eq_false h, eq_false (show ¬(sl "javascript" = sl "python") by decide), if_false]

theorem pw_generateExpectation_lang (a s : Str) (lang : Str) (h : lang ≠ sl "python") :
    Playwright.generateExpectation a s lang =
      Playwright.generateExpectation a s (sl "javascript") := by
  unfold Playwright.generateExpectation
  simp only [eq_false h, eq_false (show ¬(sl "javascript" = sl "python") by decide), if_false]

theorem pw_generateComment_lang (t : Str) (lang : Str) (h : lang ≠ sl "python") :
    Playwright.generateComment t lang = Playwright.generateComment t (sl "javascript") := by
  unfold Playwright.generateComment
  simp only [eq_false h, eq_false (show ¬(sl "javascript" = sl "python") by decide), if_false]

theorem pw_convertStep_lang (ev : TraceEvent) (lang : Str) (h : lang ≠ sl "python") :
    Playwright.convertStep ev lang = Playwright.convertStep ev (sl "javascript") := by
  have hp : ∀ (a s : Str) (v : Option Str),
      Playwright.generatePageAction a s lang v =
        Playwright.generatePageAction a s (sl "javascript") v :=
    fun a s v => pw_generatePageAction_lang a s v lang h
  have hx : ∀ a s : Str,
      Playwright.generateExpectation a s lang =
        Playwright.generateExpectation a s (sl "javascript") :=
    fun a s => pw_generateExpectation_lang a s lang h
  have hc : ∀ t : Str,
      Playwright.generateComment t lang = Playwright.generateComment t (sl "javascript") :=
    fun t => pw_generateComment_lang t lang h
  have hso : ∀ s t : Str,
      Playwright.generateSelectOption s t lang =
        Playwright.generateSelectOption s t (sl "javascript") :=
    fun _ _ => rfl
  unfold Playwright.convertStep
  cases targetAsString ev.target with
  | none => rfl
  | some tgt => simp only [hp, hx, hc, hso]

theorem pw_processEvent_lang (st : Playwright.ConvState) (ev : TraceEvent) (lang : Str)
    (h : lang ≠ sl "python") :
    Playwright.processEvent lang st ev = Playwright.processEvent (sl "javascript") st ev := by
  unfold Playwright.processEvent
  simp only [pw_convertStep_lang ev lang h,
    pw_generateComment_lang (sl "Unsupported action: " ++ ev.kind) lang h]

theorem pw_processLine_lang (st : Playwright.ConvState) (line : Str) (lang : Str)
    (h : lang ≠ sl "python") :
    Playwright.processLine lang st line = Playwright.processLine (sl "javascript") st line := by
  have hev : ∀ (st' : Playwright.ConvState) (ev : TraceEvent),
      Playwright.processEvent lang st' ev = Playwright.processEvent (sl "javascript") st' ev :=
    fun st' ev => pw_processEvent_lang st' ev lang h
  unfold Playwright.processLine
  simp only [hev]

theorem pw_run_lang (content : Str) (lang : Str) (h : lang ≠ sl "python") :
    Playwright.run content lang = Playwright.run content (sl "javascript") := by
  unfold Playwright.run
  suffices hs : ∀ (ls : List Str) (st : Playwright.ConvState),
      ls.foldl (Playwright.processLine lang) st =
        ls.foldl (Playwright.processLine (sl "javascript")) st by
    exact hs _ _
  intro ls
  induction ls with
  | nil => intro st; rfl
  | cons l rest ih =>
    intro st
    rw [List.foldl_cons, List.foldl_cons, pw_processLine_lang st l lang h]
    exact ih _

/-- C6. Selecting a language a converter does not support silently falls
back to that converter's JavaScript output: the Cypress converter treats
every language other than `typescript` (including `python`) exactly as
`javascript` — same document, same filename `migrated-selenium.cy.js`, same
statistics — and the Playwright converter treats every language other than
`typescript` and `python` exactly as `javascript`. -/
theorem c6_unsupported_language_falls_back :
    (∀ (content lang : Str), lang ≠ sl "typescript" →
      Cypress.convert content lang = Cypress.convert content (sl "javascript")) ∧
    Cypress.getFilename (sl "python") = sl "migrated-selenium.cy.js" ∧
    (Cypress.convert (sl "") (sl "python")).filename = sl "migrated-selenium.cy.js" ∧
    (∀ (content lang : Str), lang ≠ sl "typescript" → lang ≠ sl "python" →
      Playwright.convert content lang = Playwright.convert content (sl "javascript")) := by
  refine ⟨?_, by decide, by decide, ?_⟩
  · intro content lang h
    have hrun : Cypress.run content lang = Cypress.run content (sl "javascript") := rfl
    unfold Cypress.convert
    rw [hrun]
    unfold Cypress.generateTestFile Cypress.getFilename
    simp only [eq_false h, eq_false (show ¬(sl "javascript" = sl "typescript") by decide),
      if_false]
  · intro content lang h1 h2
    unfold Playwright.convert
    rw [pw_run_lang content lang h2]
    unfold Playwright.generateTestFile Playwright.getFilename
    simp only [eq_false h1, eq_false h2,
      eq_false (show ¬(sl "javascript" = sl "typescript") by decide),
      eq_false (show ¬(sl "javascript" = sl "python") by decide), if_false]

/-!
## Quote escaping (claim C7)
-/

/-- C7. Every `"` of a rendered selector (or fabricated fill value) is
backslash-escaped inside the emitted double-quoted string literal: the
escaping function precedes every output quote with a backslash, the Cypress
`sendKeys` fragment embeds `escapeQuotes` of both the selector and the
fabricated value, and so does the Playwright `fill` code line. -/
theorem c7_embedded_quotes_escaped :
    Cypress.convertStep
        { kind := sl "sendKeys", target := some (.str (sl "[[d] -> css selector: .q\"z]")),
          durationMs := sl "1" } (sl "javascript") none [] =
      some { action := sl "cy.get(\".q\\\"z\").type(\"test-value\")"
             comment := sl "Type into input field" } ∧
    Playwright.generatePageAction (sl "fill") (sl ".q\"z") (sl "javascript")
        (some (sl "va\"l")) =
      sl "await page.fill(\".q\\\"z\", \"va\\\"l\");" ∧
    (∀ (s u v : Str), escapeQuotes s = u ++ '"' :: v → ∃ u', u = u' ++ ['\\']) ∧
    (∀ (tgt dur lang : Str) (co : Option Str) (nav : List (Option Str)),
      Cypress.convertStep
          { kind := sl "sendKeys", target := some (.str tgt), durationMs := dur }
          lang co nav =
        some { action := sl "cy.get(\"" ++ escapeQuotes (Cypress.extractCleanSelector tgt) ++
                         sl "\").type(\"" ++
                         escapeQuotes (Cypress.guessInputValue (Cypress.extractCleanSelector tgt)) ++
                         sl "\")"
               comment := sl "Type into input field" }) ∧
    (∀ (selector value : Str),
      Playwright.generatePageAction (sl "fill") selector (sl "javascript") (some value) =
        sl "await page.fill(\"" ++ escapeQuotes selector ++ sl "\", \"" ++
          escapeQuotes value ++ sl "\");") := by
  refine ⟨by decide, by decide, escapeQuotes_quote_preceded, ?_, ?_⟩
  · intro tgt dur lang co nav
    have e1 : (sl "sendKeys" = sl "get") = False := eq_false (by decide)
    have e2 : (sl "sendKeys" = sl "click") = False := eq_false (by decide)
    have e3 : (sl "sendKeys" = sl "sendKeys") = True := eq_true rfl
    simp only [Cypress.convertStep, targetAsString, e1, e2, e3, if_true, if_false,
      escSel_eq_escapeQuotes]
  · intro selector value
    have e0 : (sl "javascript" = sl "python") = False := eq_false (by decide)
    have e1 : (sl "fill" = sl "goto") = False := eq_false (by decide)
    have e2 : (sl "fill" = sl "click") = False := eq_false (by decide)
    have e3 : (sl "fill" = sl "fill") = True := eq_true rfl
    simp only [Playwright.generatePageAction, e0, e1, e2, e3, if_true, if_false,
      escVal, escSel_eq_escapeQuotes]

end FM
